import Mathlib

/-!
Shallow embedding of the receipt-validation core of this repository
(`validate_receipt` in `src/validation_ui.py`) and proofs about the
frozen claims on its specification.

Modelling conventions (documented once here, referenced below):

* Python values reaching the validator are modelled by `PyVal`
  (`None`, booleans, ints, floats, strings, lists).  Python floats are
  idealised as exact rationals (`ℚ`); consequently the non-finite
  floats `inf`/`nan` are outside the model (the string forms `"inf"`,
  `"nan"`, and numeric strings whose value would overflow a double are
  treated as unparseable).  All tolerance arithmetic of the source is
  exact decimal arithmetic, so nothing in the claims depends on IEEE
  rounding.
* A Python dict is modelled as a partial map `String → Option PyVal`;
  `data.get(k)` is `pyGet`, which collapses an absent key to `None`
  exactly as `dict.get` does.
* `str(v)` is modelled by `pyStrOf`.  For floats and lists the precise
  rendering of CPython is abstracted; the abstraction preserves the
  only fact used downstream: such renderings contain a character
  (`.`, `/`, `[`) that can never occur in a string accepted by
  `strptime(s, "%Y-%m-%d")`, so the date check agrees with CPython on
  every value.
* `datetime.strptime(s, "%Y-%m-%d")` is modelled by `strptimeYmd`,
  transcribed from CPython's `_strptime` regular expressions
  (`%Y` = exactly four digits, `%m` = `1[0-2]|0[1-9]|[1-9]`,
  `%d` = `3[01]|[12]\d|0[1-9]|[1-9]`), the whole-string check
  ("unconverted data remains"), and the calendar validation done by the
  `datetime` constructor (year ≥ 1, day within the month, Gregorian
  leap years).  Digits are ASCII digits.
* `float(v)` is modelled by `pyFloat`, an `Except` value recording
  which exception class a failing conversion raises; `float` of an int
  too large for a double raises `OverflowError` (cutoff
  `2 ^ 1024 - 2 ^ 970`, the exact rounding boundary of ints to
  doubles), which the source's `except (ValueError, TypeError)` does
  NOT catch.  String parsing accepts optional surrounding ASCII
  whitespace, an optional sign, a decimal significand and an optional
  exponent (underscore separators and `inf`/`nan` are outside the
  model, see above).
* The external collaborator `receipt_exists` is an injected function
  `ex : PyVal → Bool`, applied to `data.get("bill_id")` as in the
  source.
-/

set_option maxRecDepth 8000

set_option exponentiation.threshold 1200

namespace Receipt

/-- A Python runtime value as far as the validator can observe one. -/
inductive PyVal where
  | none : PyVal
  | bool : Bool → PyVal
  | int : Int → PyVal
  | rat : ℚ → PyVal
  | str : String → PyVal
  | list : List String → PyVal

/-- A Python dict of receipt fields: a partial map from key to value. -/
abbrev Dict := String → Option PyVal

/-- Model of `data.get(k)`: an absent key yields `None`. -/
def pyGet (data : Dict) (k : String) : PyVal :=
  (data k).getD PyVal.none

/-- Model of the identity test `v is None`. -/
def PyVal.isNone : PyVal → Bool
  | .none => true
  | _ => false

/-- Exception classes that can arise from `float(...)` in the source. -/
inductive PyExc where
  | valueError : PyExc
  | typeError : PyExc
  | overflowError : PyExc
deriving DecidableEq

/-- Drop leading ASCII whitespace (model of the stripping `float` does
on string arguments). -/
def skipSpaces : List Char → List Char
  | [] => []
  | c :: cs => if c = ' ' ∨ c = '\t' ∨ c = '\n' ∨ c = '\r' then skipSpaces cs else c :: cs

/-- Split a character list into its maximal leading run of ASCII digits
and the remainder. -/
def takeDigits : List Char → List Char × List Char
  | [] => ([], [])
  | c :: cs =>
    if c.isDigit then
      let r := takeDigits cs
      (c :: r.1, r.2)
    else ([], c :: cs)

/-- Numeric value of a list of ASCII digits, most significant first. -/
def natOfDigits (ds : List Char) : Nat :=
  ds.foldl (fun n c => n * 10 + (c.toNat - 48)) 0

/-- Parse the decimal significand of a Python float literal: either
`digits`, `digits.digits?`, or `.digits`. Returns its value and the
unconsumed remainder. -/
def parseMantissa (cs : List Char) : Option (ℚ × List Char) :=
  let ip := takeDigits cs
  match ip.2 with
  | '.' :: cs2 =>
    let fp := takeDigits cs2
    if ip.1.isEmpty && fp.1.isEmpty then Option.none
    else some ((natOfDigits ip.1 : ℚ) + (natOfDigits fp.1 : ℚ) / (10 : ℚ) ^ fp.1.length, fp.2)
  | rest => if ip.1.isEmpty then Option.none else some ((natOfDigits ip.1 : ℚ), rest)

/-- Parse the signed digit string that must follow `e`/`E` in a Python
float literal. -/
def parseExpTail : List Char → Option (ℤ × List Char)
  | '+' :: cs =>
    let d := takeDigits cs
    if d.1.isEmpty then Option.none else some ((natOfDigits d.1 : ℤ), d.2)
  | '-' :: cs =>
    let d := takeDigits cs
    if d.1.isEmpty then Option.none else some (-(natOfDigits d.1 : ℤ), d.2)
  | cs =>
    let d := takeDigits cs
    if d.1.isEmpty then Option.none else some ((natOfDigits d.1 : ℤ), d.2)

/-- Model of `float(s)` for a string `s`: optional whitespace, optional
sign, significand, optional exponent, optional whitespace; `none` is a
`ValueError`. -/
def strToFloat (s : String) : Option ℚ :=
  let cs := skipSpaces s.data
  let signed : Bool × List Char :=
    match cs with
    | '+' :: r => (false, r)
    | '-' :: r => (true, r)
    | r => (false, r)
  match parseMantissa signed.2 with
  | Option.none => Option.none
  | some m =>
    let finish : ℚ → Option ℚ := fun q => some (if signed.1 then -q else q)
    match m.2 with
    | [] => finish m.1
    | c :: r2 =>
      if c = 'e' ∨ c = 'E' then
        match parseExpTail r2 with
        | Option.none => Option.none
        | some e =>
          if (skipSpaces e.2).isEmpty then finish (m.1 * (10 : ℚ) ^ e.1) else Option.none
      else if (skipSpaces (c :: r2)).isEmpty then finish m.1 else Option.none

/-- Smallest integer magnitude on which `float(n)` raises
`OverflowError`: integers of absolute value `≥ 2 ^ 1024 - 2 ^ 970`
round to `2 ^ 1024`, which is not representable as a double. -/
def FLOAT_OVERFLOW_BOUND : Nat := 2 ^ 1024 - 2 ^ 970

/-- Model of the builtin `float(v)`, recording the exception class of a
failing conversion. -/
def pyFloat : PyVal → Except PyExc ℚ
  | .rat q => Except.ok q
  | .int n =>
    if n.natAbs < FLOAT_OVERFLOW_BOUND then Except.ok (n : ℚ)
    else Except.error PyExc.overflowError
  | .bool b => Except.ok (if b then 1 else 0)
  | .str s =>
    match strToFloat s with
    | some q => Except.ok q
    | Option.none => Except.error PyExc.valueError
  | .none => Except.error PyExc.typeError
  | .list _ => Except.error PyExc.typeError

/-- Model of one coercion block of the source:

```
try:
    v = data.get(key)
    x = float(v) if v is not None else 0.0
except (ValueError, TypeError):
    x = 0.0
```

`ValueError`/`TypeError` are downgraded to `0.0`; any other exception
(`OverflowError`) escapes the handler. -/
def coerceFloat (v : PyVal) : Except PyExc ℚ :=
  match v with
  | .none => Except.ok 0
  | w =>
    match pyFloat w with
    | Except.ok q => Except.ok q
    | Except.error PyExc.valueError => Except.ok 0
    | Except.error PyExc.typeError => Except.ok 0
    | Except.error e => Except.error e

/-- True when `float(v)` raises one of the exceptions the source
catches (a non-numeric string or a wrongly-typed value). -/
def coercionFails (v : PyVal) : Bool :=
  match pyFloat v with
  | Except.error PyExc.valueError => true
  | Except.error PyExc.typeError => true
  | _ => false

/-- Model of `str(v)`.  Strings, ints and booleans are rendered as
CPython renders them; the decimal rendering of floats and the
rendering of lists are abstracted (see the header comment), preserving
that they contain a character impossible in a `%Y-%m-%d` date. -/
def pyStrOf : PyVal → String
  | .none => "None"
  | .bool true => "True"
  | .bool false => "False"
  | .int n => toString n
  | .rat q => if q.den = 1 then toString q.num ++ ".0" else toString q.num ++ "." ++ toString q.den
  | .str s => s
  | .list _ => "[...]"

/-- Split a character list at every `'-'`, like `str.split("-")`. -/
def splitDash : List Char → List (List Char)
  | [] => [[]]
  | c :: cs =>
    if c = '-' then [] :: splitDash cs
    else
      match splitDash cs with
      | [] => [[c]]
      | g :: gs => (c :: g) :: gs

/-- All characters are ASCII digits. -/
def allDigits (ds : List Char) : Bool := ds.all (·.isDigit)

/-- Language of the `%m` directive: `1[0-2]|0[1-9]|[1-9]`, i.e. one or
two digits with value 1..12. -/
def monthField (ds : List Char) : Bool :=
  allDigits ds && (ds.length == 1 || ds.length == 2) &&
    decide (1 ≤ natOfDigits ds) && decide (natOfDigits ds ≤ 12)

/-- Language of the `%d` directive: `3[01]|[12]\d|0[1-9]|[1-9]`, i.e.
one or two digits with value 1..31. -/
def dayField (ds : List Char) : Bool :=
  allDigits ds && (ds.length == 1 || ds.length == 2) &&
    decide (1 ≤ natOfDigits ds) && decide (natOfDigits ds ≤ 31)

/-- Gregorian leap-year test as performed by `datetime`. -/
def isLeap (y : Nat) : Bool := y % 4 == 0 && (y % 100 != 0 || y % 400 == 0)

/-- Number of days of month `m` of year `y`. -/
def daysInMonth (y m : Nat) : Nat :=
  if m == 2 then (if isLeap y then 29 else 28)
  else if m == 4 || m == 6 || m == 9 || m == 11 then 30
  else 31

/-- Model of `datetime.strptime(s, "%Y-%m-%d")` succeeding: the whole
string must be `year-month-day` with a four-digit year ≥ 1, a one- or
two-digit month 1..12, a one- or two-digit day valid for that month
and year. -/
def strptimeYmd (s : String) : Bool :=
  match splitDash s.data with
  | [ys, ms, ds] =>
    allDigits ys && (ys.length == 4) && decide (1 ≤ natOfDigits ys) &&
      monthField ms && dayField ds &&
      decide (natOfDigits ds ≤ daysInMonth (natOfDigits ys) (natOfDigits ms))
  | _ => false

/-- Claim-side predicate transcribed from the spec's words for the date
check: exactly `YYYY-MM-DD` with a four-digit year, a TWO-digit month
and a TWO-digit day, exact match.  Used only to compare the spec's
description against the code's actual `strptime` behaviour. -/
def specStrictYmdShape (s : String) : Bool :=
  match s.data with
  | [y1, y2, y3, y4, h1, m1, m2, h2, d1, d2] =>
    y1.isDigit && y2.isDigit && y3.isDigit && y4.isDigit && (h1 == '-') &&
      m1.isDigit && m2.isDigit && (h2 == '-') && d1.isDigit && d2.isDigit
  | _ => false

/-- Payload of a check's `details` message.  Constant messages are kept
verbatim; for the two messages of the source that interpolate numbers
through `f"...{x:.2f}..."`, the interpolated numbers are kept as exact
rationals and the surrounding text is identified by the constructor
(decimal rendering of floats is abstracted, see the header comment). -/
inductive Details where
  | msg : String → Details
  | validDate : String → Details
  | invalidDate : String → Details
  | taxOk : ℚ → ℚ → Details
  | taxMismatch : ℚ → ℚ → Details
deriving DecidableEq

/-- One entry of the `checks` dict: the `pass` flag plus whichever of
the `missing` / `details` / `value` keys the source writes. -/
structure CheckResult where
  pass : Bool
  missing : Option (List String)
  details : Option Details
  value : Option ℚ
deriving DecidableEq

/-- The dict returned by `validate_receipt`: the overall flag and the
`checks` dict in insertion order. -/
structure ValidationReport where
  passed : Bool
  checks : List (String × CheckResult)
deriving DecidableEq

/-- `required = ["bill_id", "vendor", "date", "amount", "tax"]`. -/
def requiredFields : List String := ["bill_id", "vendor", "date", "amount", "tax"]

/-- `missing = [f for f in required if data.get(f) is None]`. -/
def requiredMissing (data : Dict) : List String :=
  requiredFields.filter fun f => (pyGet data f).isNone

/-- The five check names, in the order the source inserts them. -/
def checkNames : List String :=
  ["required_fields", "date_format", "total_amount", "tax_rate", "is_duplicate"]

/-- `EXPECTED_TAX_RATE = 0.08`. -/
def EXPECTED_TAX_RATE : ℚ := 8 / 100

/-- `TOLERANCE = 0.05`. -/
def TOLERANCE : ℚ := 5 / 100

/-- Python's `abs` on (idealised) floats. -/
def pyAbs (q : ℚ) : ℚ := if q < 0 then -q else q

/-- The candidate loop of the tax-rate block:

```
for subtotal in [subtotal_option_1, subtotal_option_2]:
    if subtotal <= 0: continue
    rate = tax / subtotal          # guarded division; subtotal > 0 here,
                                   # so the ZeroDivisionError arm is dead
    if abs(rate - EXPECTED_TAX_RATE) <= TOLERANCE:
        ...; break
```

Returns the first accepted `(subtotal, rate)` pair, if any. -/
def taxLoop (tax : ℚ) : List ℚ → Option (ℚ × ℚ)
  | [] => Option.none
  | subtotal :: rest =>
    if subtotal ≤ 0 then taxLoop tax rest
    else
      let rate := tax / subtotal
      if pyAbs (rate - EXPECTED_TAX_RATE) ≤ TOLERANCE then some (subtotal, rate)
      else taxLoop tax rest

/-- Date-format block of the source.  Takes and returns the running
`passed` flag: the failing branch sets it to `False`. -/
def dateBlock (dateVal : PyVal) (passed : Bool) : CheckResult × Bool :=
  if strptimeYmd (pyStrOf dateVal) then
    (⟨true, Option.none, some (Details.validDate (pyStrOf dateVal)), Option.none⟩, passed)
  else
    (⟨false, Option.none, some (Details.invalidDate (pyStrOf dateVal)), Option.none⟩, false)

/-- Total-amount block of the source (`if amount > 0`). The passing
entry carries the `value` key, not `details`. -/
def totalBlock (amount : ℚ) (passed : Bool) : CheckResult × Bool :=
  if 0 < amount then
    (⟨true, Option.none, Option.none, some amount⟩, passed)
  else
    (⟨false, Option.none, some (Details.msg "Invalid amount value"), Option.none⟩, false)

/-- Tax-rate block of the source (`if tax == 0.0` / candidate loop). -/
def taxBlock (amount tax : ℚ) (passed : Bool) : CheckResult × Bool :=
  if tax = 0 then
    (⟨true, Option.none, some (Details.msg "No tax applied"), Option.none⟩, passed)
  else
    match taxLoop tax [amount - tax, amount] with
    | some st =>
      (⟨true, Option.none, some (Details.taxOk st.2 st.1), Option.none⟩, passed)
    | Option.none =>
      (⟨false, Option.none, some (Details.taxMismatch tax amount), Option.none⟩, false)

/-- Duplicate-detection block of the source
(`if not skip_duplicate: ...`). -/
def dupBlock (ex : PyVal → Bool) (billId : PyVal) (skip : Bool) (passed : Bool) :
    CheckResult × Bool :=
  if !skip then
    if ex billId then
      (⟨false, Option.none, some (Details.msg "Duplicate receipt found"), Option.none⟩, false)
    else
      (⟨true, Option.none, some (Details.msg "No duplicate found"), Option.none⟩, passed)
  else
    (⟨true, Option.none, some (Details.msg "Duplicate check skipped"), Option.none⟩, passed)

/-- The report built on the non-short-circuit path, with `amount` and
`tax` already coerced.  Blocks run in source order, threading the
`passed` flag; the checks dict is assembled in insertion order. -/
def buildReport (ex : PyVal → Bool) (data : Dict) (skip : Bool) (amount tax : ℚ) :
    ValidationReport :=
  let dc := dateBlock (pyGet data "date") true
  let tc := totalBlock amount dc.2
  let xc := taxBlock amount tax tc.2
  let du := dupBlock ex (pyGet data "bill_id") skip xc.2
  ⟨du.2,
   [("required_fields",
     ⟨true, Option.none, some (Details.msg "All required fields present"), Option.none⟩),
    ("date_format", dc.1),
    ("total_amount", tc.1),
    ("tax_rate", xc.1),
    ("is_duplicate", du.1)]⟩

/-- Model of `validate_receipt(data, skip_duplicate)`.

The required-fields check short-circuits exactly as the source does.
The two numeric coercions are the only fallible steps (every other
block is pure), so evaluating them directly after the short-circuit
test — rather than interleaved after the date block as in the source's
line order — is observationally identical; an uncaught `OverflowError`
is surfaced as an `Except.error`. -/
def validate_receipt (ex : PyVal → Bool) (data : Dict) (skip_duplicate : Bool) :
    Except PyExc ValidationReport :=
  if (requiredMissing data).isEmpty then
    match coerceFloat (pyGet data "amount"), coerceFloat (pyGet data "tax") with
    | Except.error e, _ => Except.error e
    | Except.ok _, Except.error e => Except.error e
    | Except.ok amount, Except.ok tax =>
      Except.ok (buildReport ex data skip_duplicate amount tax)
  else
    Except.ok ⟨false,
      [("required_fields", ⟨false, some (requiredMissing data), Option.none, Option.none⟩)]⟩

/-- Convenience accessor for a named check of a validation result. -/
def getCheck (res : Except PyExc ValidationReport) (name : String) : Option CheckResult :=
  match res with
  | Except.ok r => r.checks.lookup name
  | Except.error _ => Option.none

/-- A dict holding exactly the five required keys. -/
def mkRecord (bid vend dt amt tx : PyVal) : Dict := fun k =>
  if k = "bill_id" then some bid
  else if k = "vendor" then some vend
  else if k = "date" then some dt
  else if k = "amount" then some amt
  else if k = "tax" then some tx
  else Option.none

/-- A duplicate-lookup collaborator that never finds a duplicate. -/
def exFalse : PyVal → Bool := fun _ => false

/-- A duplicate-lookup collaborator that always reports a duplicate. -/
def exTrue : PyVal → Bool := fun _ => true

/-- A well-formed record: amount 1000, tax 80 (the spec's worked
example; candidate subtotal 920, rate 2/23 ≈ 8.70 %). -/
def recTax80 : Dict :=
  mkRecord (.str "B1") (.str "V") (.str "2024-01-15") (.int 1000) (.int 80)

/-- A record with an empty-string vendor (present, not missing) and no
tax key at all (missing). -/
def recMissTax : Dict := fun k =>
  if k = "bill_id" then some (.str "B1")
  else if k = "vendor" then some (.str "")
  else if k = "date" then some (.str "2024-01-15")
  else if k = "amount" then some (.int 100)
  else Option.none

/-- A record whose amount and tax are non-numeric strings: both coerce
to `0.0` silently. -/
def recC3 : Dict :=
  mkRecord (.str "B3") (.str "V") (.str "2024-01-15") (.str "abc") (.str "xyz")

/-- A record whose date has a one-digit month and day, which CPython's
`strptime("%Y-%m-%d")` accepts. -/
def recC4 : Dict :=
  mkRecord (.str "B4") (.str "V") (.str "2024-1-5") (.int 100) (.int 0)

/-- A plain valid record with zero tax. -/
def recC5 : Dict :=
  mkRecord (.str "B5") (.str "V") (.str "2024-01-15") (.int 100) (.int 0)

/-- A record with a negative amount (the spec's `Amount = -5` example). -/
def recNeg : Dict :=
  mkRecord (.str "B6") (.str "V") (.str "2024-01-15") (.int (-5)) (.int 0)

/-- A record whose amount is an integer too large for a double:
`float(10 ** 400)` raises `OverflowError`. -/
def recHuge : Dict :=
  mkRecord (.str "B9") (.str "V") (.str "2024-01-15") (.int (10 ^ 400)) (.int 5)

/-- The failing branch of every block, and only it, clears the running
flag: the out-flag of the date block is the in-flag ANDed with the
check's own result. -/
theorem dateBlock_snd (v : PyVal) (p : Bool) :
    (dateBlock v p).2 = (p && (dateBlock v p).1.pass) := by
  unfold dateBlock
  split <;> simp

/-- Out-flag equation of the total-amount block. -/
theorem totalBlock_snd (amount : ℚ) (p : Bool) :
    (totalBlock amount p).2 = (p && (totalBlock amount p).1.pass) := by
  unfold totalBlock
  split <;> simp

/-- Out-flag equation of the tax-rate block. -/
theorem taxBlock_snd (amount tax : ℚ) (p : Bool) :
    (taxBlock amount tax p).2 = (p && (taxBlock amount tax p).1.pass) := by
  unfold taxBlock
  split
  · simp
  · split <;> simp

/-- Out-flag equation of the duplicate block. -/
theorem dupBlock_snd (ex : PyVal → Bool) (b : PyVal) (skip : Bool) (p : Bool) :
    (dupBlock ex b skip p).2 = (p && (dupBlock ex b skip p).1.pass) := by
  unfold dupBlock
  split
  · split <;> simp
  · simp

/-- The check entry produced by the date block, as a conditional. -/
theorem dateBlock_fst (v : PyVal) (p : Bool) :
    (dateBlock v p).1 =
      (if strptimeYmd (pyStrOf v) then
        (⟨true, Option.none, some (Details.validDate (pyStrOf v)), Option.none⟩ : CheckResult)
       else
        ⟨false, Option.none, some (Details.invalidDate (pyStrOf v)), Option.none⟩) := by
  unfold dateBlock
  split_ifs <;> rfl

/-- The check entry produced by the total-amount block. -/
theorem totalBlock_fst (amount : ℚ) (p : Bool) :
    (totalBlock amount p).1 =
      (if 0 < amount then (⟨true, Option.none, Option.none, some amount⟩ : CheckResult)
       else ⟨false, Option.none, some (Details.msg "Invalid amount value"), Option.none⟩) := by
  unfold totalBlock
  split_ifs <;> rfl

/-- The check entry produced by the tax-rate block. -/
theorem taxBlock_fst (amount tax : ℚ) (p : Bool) :
    (taxBlock amount tax p).1 =
      (if tax = 0 then
        (⟨true, Option.none, some (Details.msg "No tax applied"), Option.none⟩ : CheckResult)
       else
        match taxLoop tax [amount - tax, amount] with
        | some st => ⟨true, Option.none, some (Details.taxOk st.2 st.1), Option.none⟩
        | Option.none =>
          ⟨false, Option.none, some (Details.taxMismatch tax amount), Option.none⟩) := by
  unfold taxBlock
  split_ifs
  · rfl
  · cases taxLoop tax [amount - tax, amount] <;> rfl

/-- With `skip_duplicate = True` the duplicate block ignores the
collaborator entirely. -/
theorem dupBlock_skip (ex : PyVal → Bool) (b : PyVal) (p : Bool) :
    dupBlock ex b true p =
      (⟨true, Option.none, some (Details.msg "Duplicate check skipped"), Option.none⟩, p) := rfl

/-- With `skip_duplicate = False` the duplicate block queries the
collaborator on the bill id. -/
theorem dupBlock_noskip (ex : PyVal → Bool) (b : PyVal) (p : Bool) :
    dupBlock ex b false p =
      if ex b then
        (⟨false, Option.none, some (Details.msg "Duplicate receipt found"), Option.none⟩, false)
      else
        (⟨true, Option.none, some (Details.msg "No duplicate found"), Option.none⟩, p) := rfl

/-- On a record with no missing required field and successfully coerced
amount and tax, `validate_receipt` returns the built report. -/
theorem validate_receipt_ok (ex : PyVal → Bool) (data : Dict) (skip : Bool) (amount tax : ℚ)
    (hm : (requiredMissing data).isEmpty = true)
    (ha : coerceFloat (pyGet data "amount") = Except.ok amount)
    (ht : coerceFloat (pyGet data "tax") = Except.ok tax) :
    validate_receipt ex data skip = Except.ok (buildReport ex data skip amount tax) := by
  unfold validate_receipt
  simp only [hm, ha, ht, if_true]

/-- The names of the checks of a built report, in insertion order. -/
theorem buildReport_names (ex : PyVal → Bool) (data : Dict) (skip : Bool) (amount tax : ℚ) :
    (buildReport ex data skip amount tax).checks.map Prod.fst = checkNames := rfl

/-- The `date_format` entry of a built report. -/
theorem buildReport_lookup_date (ex : PyVal → Bool) (data : Dict) (skip : Bool) (amount tax : ℚ) :
    (buildReport ex data skip amount tax).checks.lookup "date_format" =
      some (dateBlock (pyGet data "date") true).1 := rfl

/-- The `total_amount` entry of a built report. -/
theorem buildReport_lookup_total (ex : PyVal → Bool) (data : Dict) (skip : Bool) (amount tax : ℚ) :
    (buildReport ex data skip amount tax).checks.lookup "total_amount" =
      some (totalBlock amount (dateBlock (pyGet data "date") true).2).1 := rfl

/-- The `tax_rate` entry of a built report. -/
theorem buildReport_lookup_tax (ex : PyVal → Bool) (data : Dict) (skip : Bool) (amount tax : ℚ) :
    (buildReport ex data skip amount tax).checks.lookup "tax_rate" =
      some (taxBlock amount tax
        (totalBlock amount (dateBlock (pyGet data "date") true).2).2).1 := rfl

/-- The `is_duplicate` entry of a built report. -/
theorem buildReport_lookup_dup (ex : PyVal → Bool) (data : Dict) (skip : Bool) (amount tax : ℚ) :
    (buildReport ex data skip amount tax).checks.lookup "is_duplicate" =
      some (dupBlock ex (pyGet data "bill_id") skip
        (taxBlock amount tax
          (totalBlock amount (dateBlock (pyGet data "date") true).2).2).2).1 := rfl

/-- The overall flag of a built report is the conjunction of the pass
flags of the four blocks that run after the (passing) required check. -/
theorem buildReport_passed (ex : PyVal → Bool) (data : Dict) (skip : Bool) (amount tax : ℚ) :
    (buildReport ex data skip amount tax).passed =
      ((dateBlock (pyGet data "date") true).1.pass &&
       (totalBlock amount (dateBlock (pyGet data "date") true).2).1.pass &&
       (taxBlock amount tax
         (totalBlock amount (dateBlock (pyGet data "date") true).2).2).1.pass &&
       (dupBlock ex (pyGet data "bill_id") skip
         (taxBlock amount tax
           (totalBlock amount (dateBlock (pyGet data "date") true).2).2).2).1.pass) := by
  simp only [buildReport, dupBlock_snd, taxBlock_snd, totalBlock_snd, dateBlock_snd,
    Bool.true_and, Bool.and_assoc]

/-- One step of the candidate loop: a candidate is taken iff it is
positive and its rate is within tolerance; otherwise the loop moves on. -/
theorem taxLoop_cons (tax c : ℚ) (rest : List ℚ) :
    taxLoop tax (c :: rest) =
      (if 0 < c ∧ pyAbs (tax / c - EXPECTED_TAX_RATE) ≤ TOLERANCE then some (c, tax / c)
       else taxLoop tax rest) := by
  unfold taxLoop
  rcases le_or_lt c 0 with h | h
  · rw [if_pos h, if_neg (fun hc => absurd h (not_le.mpr hc.1))]
    cases rest <;> rfl
  · rw [if_neg (not_le.mpr h)]
    by_cases htol : pyAbs (tax / c - EXPECTED_TAX_RATE) ≤ TOLERANCE
    · rw [if_pos htol, if_pos ⟨h, htol⟩]
    · rw [if_neg htol, if_neg (fun hc => htol hc.2)]
      cases rest <;> rfl

/-- The two-candidate loop of the source, written out: first
`amount - tax`, then `amount`, first match wins, non-positive
candidates skipped. -/
theorem taxLoop_two (tax c1 c2 : ℚ) :
    taxLoop tax [c1, c2] =
      (if 0 < c1 ∧ pyAbs (tax / c1 - EXPECTED_TAX_RATE) ≤ TOLERANCE then some (c1, tax / c1)
       else if 0 < c2 ∧ pyAbs (tax / c2 - EXPECTED_TAX_RATE) ≤ TOLERANCE then some (c2, tax / c2)
       else Option.none) := by
  rw [taxLoop_cons, taxLoop_cons]
  rfl

/-- Being within `TOLERANCE` of `EXPECTED_TAX_RATE` is exactly lying in
the closed interval `[0.03, 0.13]`. -/
theorem tolerance_interval (rate : ℚ) :
    pyAbs (rate - EXPECTED_TAX_RATE) ≤ TOLERANCE ↔ 3 / 100 ≤ rate ∧ rate ≤ 13 / 100 := by
  unfold pyAbs EXPECTED_TAX_RATE TOLERANCE
  split_ifs with h
  · constructor
    · intro hle
      constructor <;> linarith
    · rintro ⟨h1, h2⟩
      linarith
  · constructor
    · intro hle
      constructor <;> linarith
    · rintro ⟨h1, h2⟩
      linarith

/-- The coercion block, expressed through the exception class of the
underlying `float(...)` call. -/
theorem coerceFloat_eq (v : PyVal) :
    coerceFloat v =
      (match pyFloat v with
       | Except.ok q => Except.ok q
       | Except.error PyExc.valueError => Except.ok 0
       | Except.error PyExc.typeError => Except.ok 0
       | Except.error e => Except.error e) := by
  cases v <;> rfl

/-- A failing coercion (non-numeric string or wrong type) silently
yields `0.0`. -/
theorem coerceFloat_of_fails (v : PyVal) (h : coercionFails v = true) :
    coerceFloat v = Except.ok 0 := by
  rw [coerceFloat_eq]
  unfold coercionFails at h
  rcases hv : pyFloat v with e | q
  · rw [hv] at h
    cases e <;> simp_all
  · rw [hv] at h
    simp at h

/-- C1: when at least one of the five required fields is absent or null
(empty string / zero do not count as missing), `validate_receipt`
returns `passed = false` with EXACTLY ONE check, `required_fields`,
whose `missing` list names exactly the absent fields; no other check
runs (short-circuit). -/
theorem claim1_required_short_circuit (ex : PyVal → Bool) (data : Dict) (skip : Bool)
    (h : (requiredMissing data).isEmpty = false) :
    validate_receipt ex data skip =
      Except.ok ⟨false,
        [("required_fields",
          ⟨false, some (requiredMissing data), Option.none, Option.none⟩)]⟩ ∧
    ∀ f, f ∈ requiredMissing data ↔ f ∈ requiredFields ∧ (pyGet data f).isNone = true := by
  constructor
  · unfold validate_receipt
    simp [h]
  · intro f
    simp [requiredMissing, List.mem_filter]

/-- Witness for C1: a record with an empty-string vendor (present, so
not missing) and no tax key (missing) short-circuits with
`missing = ["tax"]`. -/
theorem claim1_witness :
    (requiredMissing recMissTax).isEmpty = false ∧
    validate_receipt exFalse recMissTax true =
      Except.ok ⟨false,
        [("required_fields", ⟨false, some ["tax"], Option.none, Option.none⟩)]⟩ :=
  ⟨rfl, (claim1_required_short_circuit exFalse recMissTax true rfl).1⟩

/-- C6: for every input record, skip flag and collaborator, the overall
`passed` flag of the returned report is true iff every check the
report contains passed (logical AND of all executed checks). -/
theorem claim6_passed_iff_all (ex : PyVal → Bool) (data : Dict) (skip : Bool)
    (r : ValidationReport) (h : validate_receipt ex data skip = Except.ok r) :
    (r.passed = true ↔ ∀ p ∈ r.checks, p.2.pass = true) := by
  unfold validate_receipt at h
  cases hm : (requiredMissing data).isEmpty with
  | false =>
    rw [hm] at h
    simp only [Bool.false_eq_true, if_false, Except.ok.injEq] at h
    subst h
    simp
  | true =>
    rw [hm] at h
    simp only [if_true] at h
    rcases hca : coerceFloat (pyGet data "amount") with e | amount <;> rw [hca] at h
    · simp at h
    rcases hct : coerceFloat (pyGet data "tax") with e | tax <;> rw [hct] at h
    · simp at h
    simp only [Except.ok.injEq] at h
    subst h
    rw [buildReport_passed]
    simp only [buildReport, List.mem_cons, List.not_mem_nil, or_false, forall_eq_or_imp,
      forall_eq, Bool.and_eq_true]
    simp [and_assoc]

/-- Witness for C6 at a concrete record (short-circuit path): the
report's flag is false and indeed not every contained check passed. -/
theorem claim6_witness :
    validate_receipt exFalse recMissTax true =
      Except.ok ⟨false,
        [("required_fields", ⟨false, some ["tax"], Option.none, Option.none⟩)]⟩ ∧
    ((false = true) ↔ ∀ p ∈ [("required_fields",
        (⟨false, some ["tax"], Option.none, Option.none⟩ : CheckResult))], p.2.pass = true) :=
  ⟨rfl, claim6_passed_iff_all exFalse recMissTax true _ rfl⟩

/-- C2: with all required fields present and amount/tax coerced, the
`tax_rate` check passes with "No tax applied" when `tax == 0.0`
exactly; otherwise it passes iff the candidate loop over
`[amount - tax, amount]` (in that fixed order, skipping non-positive
candidates, first match wins) accepts a candidate whose rate
`tax / candidate` is within `0.05` of `0.08` — equivalently lies in
`[0.03, 0.13]` — recording the used candidate and rate in `details`,
and fails otherwise. -/
theorem claim2_tax_rate (ex : PyVal → Bool) (data : Dict) (skip : Bool) (amount tax : ℚ)
    (hm : (requiredMissing data).isEmpty = true)
    (ha : coerceFloat (pyGet data "amount") = Except.ok amount)
    (ht : coerceFloat (pyGet data "tax") = Except.ok tax) :
    ∃ r c, validate_receipt ex data skip = Except.ok r ∧
      r.checks.lookup "tax_rate" = some c ∧
      (tax = 0 →
        c = ⟨true, Option.none, some (Details.msg "No tax applied"), Option.none⟩) ∧
      (tax ≠ 0 →
        ((c.pass = true ↔ (taxLoop tax [amount - tax, amount]).isSome = true) ∧
         (∀ s rate, taxLoop tax [amount - tax, amount] = some (s, rate) →
            c = ⟨true, Option.none, some (Details.taxOk rate s), Option.none⟩) ∧
         (taxLoop tax [amount - tax, amount] = Option.none →
            c = ⟨false, Option.none, some (Details.taxMismatch tax amount), Option.none⟩))) ∧
      taxLoop tax [amount - tax, amount] =
        (if 0 < amount - tax ∧ pyAbs (tax / (amount - tax) - EXPECTED_TAX_RATE) ≤ TOLERANCE then
          some (amount - tax, tax / (amount - tax))
         else if 0 < amount ∧ pyAbs (tax / amount - EXPECTED_TAX_RATE) ≤ TOLERANCE then
          some (amount, tax / amount)
         else Option.none) ∧
      (∀ rate : ℚ,
        pyAbs (rate - EXPECTED_TAX_RATE) ≤ TOLERANCE ↔ 3 / 100 ≤ rate ∧ rate ≤ 13 / 100) := by
  refine ⟨_, _, validate_receipt_ok ex data skip amount tax hm ha ht,
    buildReport_lookup_tax ex data skip amount tax, ?_, ?_,
    taxLoop_two tax (amount - tax) amount, tolerance_interval⟩
  · intro h0
    rw [taxBlock_fst, if_pos h0]
  · intro hne
    rw [taxBlock_fst, if_neg hne]
    rcases taxLoop tax [amount - tax, amount] with _ | ⟨s0, r0⟩
    · refine ⟨by simp, ?_, fun _ => rfl⟩
      intro s rate hsome
      simp at hsome
    · refine ⟨by simp, ?_, ?_⟩
      · intro s rate hsome
        rw [Option.some.injEq, Prod.mk.injEq] at hsome
        rw [hsome.1, hsome.2]
      · intro hnone
        simp at hnone

/-- C9: with all required fields present and amount/tax coerced, the
`total_amount` check passes iff the coerced amount is strictly
positive; otherwise it fails with details "Invalid amount value" and
the overall flag is false. -/
theorem claim9_total_amount (ex : PyVal → Bool) (data : Dict) (skip : Bool) (amount tax : ℚ)
    (hm : (requiredMissing data).isEmpty = true)
    (ha : coerceFloat (pyGet data "amount") = Except.ok amount)
    (ht : coerceFloat (pyGet data "tax") = Except.ok tax) :
    ∃ r c, validate_receipt ex data skip = Except.ok r ∧
      r.checks.lookup "total_amount" = some c ∧
      (c.pass = true ↔ 0 < amount) ∧
      (¬ 0 < amount →
        c = ⟨false, Option.none, some (Details.msg "Invalid amount value"), Option.none⟩ ∧
        r.passed = false) := by
  refine ⟨_, _, validate_receipt_ok ex data skip amount tax hm ha ht,
    buildReport_lookup_total ex data skip amount tax, ?_, ?_⟩
  · rw [totalBlock_fst]
    by_cases h : 0 < amount
    · rw [if_pos h]
      simp [h]
    · rw [if_neg h]
      simp [h]
  · intro h
    refine ⟨by rw [totalBlock_fst, if_neg h], ?_⟩
    rw [buildReport_passed]
    have hfail : (totalBlock amount (dateBlock (pyGet data "date") true).2).1.pass = false := by
      rw [totalBlock_fst, if_neg h]
    rw [hfail]
    simp

/-- C7: with all required fields present, coercions succeeding and
`skip_duplicate = False`, the `is_duplicate` check fails with details
"Duplicate receipt found" and the overall flag is false whenever the
collaborator reports the bill id as existing, and passes whenever it
does not. -/
theorem claim7_duplicate (ex : PyVal → Bool) (data : Dict) (amount tax : ℚ)
    (hm : (requiredMissing data).isEmpty = true)
    (ha : coerceFloat (pyGet data "amount") = Except.ok amount)
    (ht : coerceFloat (pyGet data "tax") = Except.ok tax) :
    ∃ r, validate_receipt ex data false = Except.ok r ∧
      (ex (pyGet data "bill_id") = true →
        r.checks.lookup "is_duplicate" =
          some ⟨false, Option.none, some (Details.msg "Duplicate receipt found"), Option.none⟩ ∧
        r.passed = false) ∧
      (ex (pyGet data "bill_id") = false →
        r.checks.lookup "is_duplicate" =
          some ⟨true, Option.none, some (Details.msg "No duplicate found"), Option.none⟩) := by
  refine ⟨_, validate_receipt_ok ex data false amount tax hm ha ht, ?_, ?_⟩
  · intro hex
    constructor
    · rw [buildReport_lookup_dup, dupBlock_noskip, if_pos hex]
    · rw [buildReport_passed]
      have hfail : (dupBlock ex (pyGet data "bill_id") false
          (taxBlock amount tax
            (totalBlock amount (dateBlock (pyGet data "date") true).2).2).2).1.pass = false := by
        rw [dupBlock_noskip, if_pos hex]
      rw [hfail]
      simp
  · intro hex
    rw [buildReport_lookup_dup, dupBlock_noskip, if_neg (by simp [hex])]

/-- C8: with all required fields present and `skip_duplicate = True`,
the `is_duplicate` check passes unconditionally with details
"Duplicate check skipped", and the collaborator is never consulted:
any two collaborators yield identical results on the same record. -/
theorem claim8_skip_hyper (ex1 ex2 : PyVal → Bool) (data : Dict)
    (hm : (requiredMissing data).isEmpty = true) :
    validate_receipt ex1 data true = validate_receipt ex2 data true ∧
    ∀ r, validate_receipt ex1 data true = Except.ok r →
      r.checks.lookup "is_duplicate" =
        some ⟨true, Option.none, some (Details.msg "Duplicate check skipped"), Option.none⟩ := by
  constructor
  · unfold validate_receipt
    simp only [hm, if_true]
    rcases hca : coerceFloat (pyGet data "amount") with e | amount
    · rfl
    rcases hct : coerceFloat (pyGet data "tax") with e | tax
    · rfl
    simp only [buildReport, dupBlock_skip]
  · intro r h
    rcases hca : coerceFloat (pyGet data "amount") with e | amount
    · unfold validate_receipt at h
      rw [hm, hca] at h
      simp at h
    rcases hct : coerceFloat (pyGet data "tax") with e | tax
    · unfold validate_receipt at h
      rw [hm, hca, hct] at h
      simp at h
    rw [validate_receipt_ok ex1 data true amount tax hm hca hct, Except.ok.injEq] at h
    subst h
    rw [buildReport_lookup_dup, dupBlock_skip]

/-- Counterexample to C3 as stated: in `recC3` the tax field is the
non-numeric string "xyz", so coercion fails and tax becomes `0.0` —
but the `tax_rate` check then PASSES ("No tax applied") instead of
failing as the claim asserts. -/
theorem claim3_counterexample :
    coercionFails (pyGet recC3 "tax") = true ∧
    getCheck (validate_receipt exFalse recC3 true) "tax_rate" =
      some ⟨true, Option.none, some (Details.msg "No tax applied"), Option.none⟩ :=
  ⟨rfl, rfl⟩

/-- C3 amended: a failed numeric coercion silently yields `0.0` and
produces no check entry of its own (the report still has exactly the
five checks); the coerced `0.0` then makes the `total_amount` check
fail when it was the amount that failed to coerce, while a tax that
failed to coerce makes the `tax_rate` check PASS as "No tax applied".
Validation never aborts on a coercion failure of this kind. -/
theorem claim3_coercion_amended (ex : PyVal → Bool) (data : Dict) (skip : Bool) (amount tax : ℚ)
    (hm : (requiredMissing data).isEmpty = true)
    (ha : coerceFloat (pyGet data "amount") = Except.ok amount)
    (ht : coerceFloat (pyGet data "tax") = Except.ok tax) :
    (coercionFails (pyGet data "amount") = true →
      amount = 0 ∧ ∃ r, validate_receipt ex data skip = Except.ok r ∧
        r.checks.map Prod.fst = checkNames ∧
        r.checks.lookup "total_amount" =
          some ⟨false, Option.none, some (Details.msg "Invalid amount value"), Option.none⟩) ∧
    (coercionFails (pyGet data "tax") = true →
      tax = 0 ∧ ∃ r, validate_receipt ex data skip = Except.ok r ∧
        r.checks.map Prod.fst = checkNames ∧
        r.checks.lookup "tax_rate" =
          some ⟨true, Option.none, some (Details.msg "No tax applied"), Option.none⟩) := by
  constructor
  · intro hf
    have h0 : amount = 0 := by
      have hc := coerceFloat_of_fails _ hf
      rw [ha, Except.ok.injEq] at hc
      exact hc
    refine ⟨h0, _, validate_receipt_ok ex data skip amount tax hm ha ht,
      buildReport_names ex data skip amount tax, ?_⟩
    rw [buildReport_lookup_total, totalBlock_fst, if_neg (by rw [h0]; exact lt_irrefl 0)]
  · intro hf
    have h0 : tax = 0 := by
      have hc := coerceFloat_of_fails _ hf
      rw [ht, Except.ok.injEq] at hc
      exact hc
    refine ⟨h0, _, validate_receipt_ok ex data skip amount tax hm ha ht,
      buildReport_names ex data skip amount tax, ?_⟩
    rw [buildReport_lookup_tax, taxBlock_fst, if_pos h0]

/-- Counterexample to C4 as stated: the date "2024-1-5" has a one-digit
month and day, so it is NOT strict `YYYY-MM-DD` in the claim's sense,
yet the code's `strptime`-based check passes on it. -/
theorem claim4_counterexample :
    getCheck (validate_receipt exFalse recC4 true) "date_format" =
      some ⟨true, Option.none, some (Details.validDate "2024-1-5"), Option.none⟩ ∧
    specStrictYmdShape "2024-1-5" = false :=
  ⟨rfl, rfl⟩

/-- C4 amended: the `date_format` check passes iff
`str(date)` parses under CPython's `strptime("%Y-%m-%d")` semantics —
exactly-four-digit year ≥ 1, one- or two-digit month 1..12, one- or
two-digit day valid for that month and year, whole string consumed
(so one-digit months/days such as "2024-1-5" are accepted).  The
spec's stated examples hold: "2024-01-15" passes, "15-01-2024" and
"2024/01/15" fail; a date failure does not short-circuit — the report
still contains all five checks. -/
theorem claim4_date_format_amended (ex : PyVal → Bool) (data : Dict) (skip : Bool)
    (amount tax : ℚ)
    (hm : (requiredMissing data).isEmpty = true)
    (ha : coerceFloat (pyGet data "amount") = Except.ok amount)
    (ht : coerceFloat (pyGet data "tax") = Except.ok tax) :
    ∃ r c, validate_receipt ex data skip = Except.ok r ∧
      r.checks.lookup "date_format" = some c ∧
      c.pass = strptimeYmd (pyStrOf (pyGet data "date")) ∧
      r.checks.map Prod.fst = checkNames ∧
      strptimeYmd "2024-01-15" = true ∧
      strptimeYmd "15-01-2024" = false ∧
      strptimeYmd "2024/01/15" = false := by
  refine ⟨_, _, validate_receipt_ok ex data skip amount tax hm ha ht,
    buildReport_lookup_date ex data skip amount tax, ?_,
    buildReport_names ex data skip amount tax, rfl, rfl, rfl⟩
  rw [dateBlock_fst]
  by_cases h : strptimeYmd (pyStrOf (pyGet data "date")) = true
  · rw [if_pos h]
    exact h.symm
  · rw [if_neg h]
    simp only [Bool.not_eq_true] at h
    exact h.symm

/-- Counterexample to C5 as stated: the passing `total_amount` entry of
a valid record carries a `value` key but neither a `details` message
nor a `missing` list. -/
theorem claim5_counterexample :
    ∃ c, getCheck (validate_receipt exFalse recC5 true) "total_amount" = some c ∧
      c.details = Option.none ∧ c.missing = Option.none ∧ c.pass = true :=
  ⟨⟨true, Option.none, Option.none, some 100⟩, rfl, rfl, rfl, rfl⟩

/-- C5 amended: every check recorded in a report is one of the five
named checks and carries, besides its boolean `pass`, either a
`missing` list or a `details` message — except that the passing
`total_amount` check, and only it, instead carries a `value` entry
(with neither `details` nor `missing`). -/
theorem claim5_check_shape_amended (ex : PyVal → Bool) (data : Dict) (skip : Bool)
    (r : ValidationReport) (h : validate_receipt ex data skip = Except.ok r) :
    ∀ p ∈ r.checks, p.1 ∈ checkNames ∧
      ((p.2.missing.isSome || p.2.details.isSome) = true ∨
       (p.1 = "total_amount" ∧ p.2.pass = true ∧ p.2.value.isSome = true ∧
        p.2.missing = Option.none ∧ p.2.details = Option.none)) := by
  unfold validate_receipt at h
  cases hm : (requiredMissing data).isEmpty <;> rw [hm] at h
  · simp only [Bool.false_eq_true, if_false, Except.ok.injEq] at h
    subst h
    simp [checkNames]
  · simp only [if_true] at h
    rcases hca : coerceFloat (pyGet data "amount") with e | amount <;> rw [hca] at h
    · simp at h
    rcases hct : coerceFloat (pyGet data "tax") with e | tax <;> rw [hct] at h
    · simp at h
    simp only [Except.ok.injEq] at h
    subst h
    intro p hp
    simp only [buildReport, List.mem_cons, List.not_mem_nil, or_false] at hp
    rcases hp with h1 | h2 | h3 | h4 | h5
    · subst h1
      exact ⟨by simp [checkNames], Or.inl rfl⟩
    · subst h2
      refine ⟨by simp [checkNames], Or.inl ?_⟩
      rw [dateBlock_fst]
      split_ifs <;> rfl
    · subst h3
      refine ⟨by simp [checkNames], ?_⟩
      rw [totalBlock_fst]
      split_ifs
      · exact Or.inr ⟨rfl, rfl, rfl, rfl, rfl⟩
      · exact Or.inl rfl
    · subst h4
      refine ⟨by simp [checkNames], Or.inl ?_⟩
      rw [taxBlock_fst]
      split_ifs
      · rfl
      · cases taxLoop tax [amount - tax, amount] <;> rfl
    · subst h5
      refine ⟨by simp [checkNames], Or.inl ?_⟩
      unfold dupBlock
      split_ifs <;> rfl

/-- C10 (violated by the code): on a record whose amount is the integer
`10 ^ 400`, coercion raises `OverflowError`, which the source's
`except (ValueError, TypeError)` does not catch, so `validate_receipt`
propagates an exception instead of returning a report. -/
theorem claim10_overflow_escapes :
    validate_receipt exFalse recHuge false = Except.error PyExc.overflowError ∧
    (requiredMissing recHuge).isEmpty = true :=
  ⟨rfl, rfl⟩

/-- The report produced on `recC5` (all checks pass; the zero tax takes
the "No tax applied" branch). -/
def reportC5 : ValidationReport :=
  ⟨true,
   [("required_fields",
     ⟨true, Option.none, some (Details.msg "All required fields present"), Option.none⟩),
    ("date_format",
     ⟨true, Option.none, some (Details.validDate "2024-01-15"), Option.none⟩),
    ("total_amount", ⟨true, Option.none, Option.none, some 100⟩),
    ("tax_rate",
     ⟨true, Option.none, some (Details.msg "No tax applied"), Option.none⟩),
    ("is_duplicate",
     ⟨true, Option.none, some (Details.msg "Duplicate check skipped"), Option.none⟩)]⟩

/-- Witness for C2 at the spec's worked example: amount 1000, tax 80
(candidate 1 = 920, rate 2/23 ≈ 8.70 %, accepted). -/
theorem claim2_witness :
    (requiredMissing recTax80).isEmpty = true ∧
    coerceFloat (pyGet recTax80 "amount") = Except.ok 1000 ∧
    coerceFloat (pyGet recTax80 "tax") = Except.ok 80 ∧
    (∃ r c, validate_receipt exFalse recTax80 false = Except.ok r ∧
      r.checks.lookup "tax_rate" = some c ∧
      ((80 : ℚ) = 0 →
        c = ⟨true, Option.none, some (Details.msg "No tax applied"), Option.none⟩) ∧
      ((80 : ℚ) ≠ 0 →
        ((c.pass = true ↔ (taxLoop 80 [1000 - 80, 1000]).isSome = true) ∧
         (∀ s rate, taxLoop 80 [1000 - 80, 1000] = some (s, rate) →
            c = ⟨true, Option.none, some (Details.taxOk rate s), Option.none⟩) ∧
         (taxLoop 80 [1000 - 80, 1000] = Option.none →
            c = ⟨false, Option.none, some (Details.taxMismatch 80 1000), Option.none⟩))) ∧
      taxLoop 80 [1000 - 80, 1000] =
        (if 0 < (1000 : ℚ) - 80 ∧
            pyAbs (80 / ((1000 : ℚ) - 80) - EXPECTED_TAX_RATE) ≤ TOLERANCE then
          some ((1000 : ℚ) - 80, 80 / ((1000 : ℚ) - 80))
         else if 0 < (1000 : ℚ) ∧ pyAbs (80 / (1000 : ℚ) - EXPECTED_TAX_RATE) ≤ TOLERANCE then
          some ((1000 : ℚ), 80 / (1000 : ℚ))
         else Option.none) ∧
      (∀ rate : ℚ,
        pyAbs (rate - EXPECTED_TAX_RATE) ≤ TOLERANCE ↔ 3 / 100 ≤ rate ∧ rate ≤ 13 / 100)) :=
  ⟨rfl, rfl, rfl, claim2_tax_rate exFalse recTax80 false 1000 80 rfl rfl rfl⟩

/-- Witness for C3 (amended) at `recC3`, whose amount and tax are the
non-numeric strings "abc" and "xyz". -/
theorem claim3_witness :
    (requiredMissing recC3).isEmpty = true ∧
    coerceFloat (pyGet recC3 "amount") = Except.ok 0 ∧
    coerceFloat (pyGet recC3 "tax") = Except.ok 0 ∧
    ((coercionFails (pyGet recC3 "amount") = true →
      (0 : ℚ) = 0 ∧ ∃ r, validate_receipt exFalse recC3 true = Except.ok r ∧
        r.checks.map Prod.fst = checkNames ∧
        r.checks.lookup "total_amount" =
          some ⟨false, Option.none, some (Details.msg "Invalid amount value"), Option.none⟩) ∧
    (coercionFails (pyGet recC3 "tax") = true →
      (0 : ℚ) = 0 ∧ ∃ r, validate_receipt exFalse recC3 true = Except.ok r ∧
        r.checks.map Prod.fst = checkNames ∧
        r.checks.lookup "tax_rate" =
          some ⟨true, Option.none, some (Details.msg "No tax applied"), Option.none⟩)) :=
  ⟨rfl, rfl, rfl, claim3_coercion_amended exFalse recC3 true 0 0 rfl rfl rfl⟩

/-- Witness for C4 (amended) at `recC5`, whose date is "2024-01-15". -/
theorem claim4_witness :
    (requiredMissing recC5).isEmpty = true ∧
    coerceFloat (pyGet recC5 "amount") = Except.ok 100 ∧
    coerceFloat (pyGet recC5 "tax") = Except.ok 0 ∧
    (∃ r c, validate_receipt exFalse recC5 true = Except.ok r ∧
      r.checks.lookup "date_format" = some c ∧
      c.pass = strptimeYmd (pyStrOf (pyGet recC5 "date")) ∧
      r.checks.map Prod.fst = checkNames ∧
      strptimeYmd "2024-01-15" = true ∧
      strptimeYmd "15-01-2024" = false ∧
      strptimeYmd "2024/01/15" = false) :=
  ⟨rfl, rfl, rfl, claim4_date_format_amended exFalse recC5 true 100 0 rfl rfl rfl⟩

/-- Witness for C5 (amended) at `recC5` with its fully evaluated
report. -/
theorem claim5_witness :
    validate_receipt exFalse recC5 true = Except.ok reportC5 ∧
    ∀ p ∈ reportC5.checks, p.1 ∈ checkNames ∧
      ((p.2.missing.isSome || p.2.details.isSome) = true ∨
       (p.1 = "total_amount" ∧ p.2.pass = true ∧ p.2.value.isSome = true ∧
        p.2.missing = Option.none ∧ p.2.details = Option.none)) :=
  ⟨rfl, claim5_check_shape_amended exFalse recC5 true reportC5 rfl⟩

/-- Witness for C7 at `recTax80` with a collaborator that reports every
bill id as already stored. -/
theorem claim7_witness :
    (requiredMissing recTax80).isEmpty = true ∧
    coerceFloat (pyGet recTax80 "amount") = Except.ok 1000 ∧
    coerceFloat (pyGet recTax80 "tax") = Except.ok 80 ∧
    (∃ r, validate_receipt exTrue recTax80 false = Except.ok r ∧
      (exTrue (pyGet recTax80 "bill_id") = true →
        r.checks.lookup "is_duplicate" =
          some ⟨false, Option.none, some (Details.msg "Duplicate receipt found"), Option.none⟩ ∧
        r.passed = false) ∧
      (exTrue (pyGet recTax80 "bill_id") = false →
        r.checks.lookup "is_duplicate" =
          some ⟨true, Option.none, some (Details.msg "No duplicate found"), Option.none⟩)) :=
  ⟨rfl, rfl, rfl, claim7_duplicate exTrue recTax80 1000 80 rfl rfl rfl⟩

/-- Witness for C8 at `recC5`, comparing the always-true and
always-false collaborators. -/
theorem claim8_witness :
    (requiredMissing recC5).isEmpty = true ∧
    (validate_receipt exTrue recC5 true = validate_receipt exFalse recC5 true ∧
     ∀ r, validate_receipt exTrue recC5 true = Except.ok r →
       r.checks.lookup "is_duplicate" =
         some ⟨true, Option.none, some (Details.msg "Duplicate check skipped"), Option.none⟩) :=
  ⟨rfl, claim8_skip_hyper exTrue exFalse recC5 rfl⟩

/-- Witness for C9 at the spec's `Amount = -5` example. -/
theorem claim9_witness :
    (requiredMissing recNeg).isEmpty = true ∧
    coerceFloat (pyGet recNeg "amount") = Except.ok (-5) ∧
    coerceFloat (pyGet recNeg "tax") = Except.ok 0 ∧
    (∃ r c, validate_receipt exFalse recNeg true = Except.ok r ∧
      r.checks.lookup "total_amount" = some c ∧
      (c.pass = true ↔ 0 < (-5 : ℚ)) ∧
      (¬ 0 < (-5 : ℚ) →
        c = ⟨false, Option.none, some (Details.msg "Invalid amount value"), Option.none⟩ ∧
        r.passed = false)) :=
  ⟨rfl, rfl, rfl, claim9_total_amount exFalse recNeg true (-5) 0 rfl rfl rfl⟩

end Receipt
